import Mathlib

/-!
Verification of the login route `app/routes/_auth+/login.tsx` of the
`09.managed-sessions / 03.problem.session-cookie` exercise.

The route's `loader` and `action` are embedded shallowly below, translated
from the source. The helpers the route imports from `app/utils/auth.server.ts`,
`app/utils/session.server.ts`, `app/utils/user-validation.ts` and `remix-utils`
are not part of the sources at hand; each such definition is modelled from the
specification and from what the route's own comments establish about them, and
says so in its doc comment. Timestamps are naturals (milliseconds); the clock
is passed explicitly as `now`.
-/

/-- A stored user record: opaque id, username, password hash. Owned by the
Credential Store and read-only here. -/
structure User where
  id : Nat
  username : String
  passwordHash : String
deriving DecidableEq

/-- A server-side session record: opaque id, reference to the user, creation
time and optional expiration time (`expirationDate` in the code; none meaning
browser-session lifetime). -/
structure Session where
  id : Nat
  userId : Nat
  createdAt : Nat
  expiresAt : Option Nat
deriving DecidableEq

/-- Modelled from the spec: the salted password hashing used by the Credential
Store of `app/utils/auth.server.ts` (not under `src/`), abstracted to an
injective stand-in. -/
def hashPassword (pw : String) : String := "hashed:" ++ pw

/-- Modelled from the spec 4.1: `verifyUserPassword` of
`app/utils/auth.server.ts` (not under `src/`), the Credential Store `verify`:
look the user up by username; if absent return none; otherwise compare the
submitted password against the stored hash; both failure modes collapse to
none so the caller cannot tell which check failed. -/
def verifyUserPassword (users : List User) (username password : String) : Option User :=
  match users.find? (fun u => u.username == username) with
  | none => none
  | some u => if u.passwordHash == hashPassword password then some u else none

/-- Modelled from the spec 4.2: Session Store `get` with lazy expiration —
absent ids, and sessions whose `expiresAt` is set and in the past, give none. -/
def sessionGet (sessions : List Session) (sid : Nat) (now : Nat) : Option Session :=
  match sessions.find? (fun s => s.id == sid) with
  | none => none
  | some s =>
    match s.expiresAt with
    | none => some s
    | some e => if e < now then none else some s

/-- The key-value data map carried inside the signed session cookie; the route
stores numeric identifiers under string keys. -/
abbrev CookieData := List (String × Nat)

/-- The raw Cookie request header, abstracted to what the codec can observe:
absent, malformed or tampered (signature fails), or a validly signed data map. -/
inductive CookieHeader where
  | absent
  | malformed
  | signed (data : CookieData)
deriving DecidableEq

/-- Modelled from the spec 4.3: `decode` gives none when the header is absent,
malformed, or fails signature verification; it never throws. -/
def decodeCookie : CookieHeader → Option CookieData
  | .signed d => some d
  | _ => none

/-- Modelled from the spec: `userIdKey` of `app/utils/auth.server.ts` (not
under `src/`): the cookie-session key the route still uses at this exercise
stage (its comment at line 80 says it should be the sessionKey instead). -/
def userIdKey : String := "userId"

/-- Modelled from the spec 3: the managed-session cookie payload encodes the
session id under this key; the codec and guard recover the session id from it. -/
def sessionKey : String := "sessionId"

/-- Modelled from the spec: `getSession` of `app/utils/session.server.ts` (not
under `src/`): read the cookie-session data from the Cookie request header,
degrading to an empty session when the cookie is absent or invalid. -/
def getSession (cookie : CookieHeader) : CookieData :=
  (decodeCookie cookie).getD []

/-- The cookie-session `set` operation: replace any existing entry for the key. -/
def sessionSet (data : CookieData) (key : String) (value : Nat) : CookieData :=
  (key, value) :: data.filter (fun kv => kv.1 != key)

/-- A committed Set-Cookie header value: the signed session data together with
the optional Expires attribute (a timestamp; none means browser-session). -/
structure SetCookie where
  data : CookieData
  expires : Option Nat
deriving DecidableEq

/-- Modelled from the spec 4.3: `commitSession` of
`app/utils/session.server.ts` (not under `src/`): serialize and sign the
session data; the `expires` option becomes the cookie Expires attribute,
none producing a browser-session cookie with no Expires. -/
def commitSession (data : CookieData) (expires : Option Nat) : SetCookie :=
  { data := data, expires := expires }

/-- The Cookie header a client sends back from a committed Set-Cookie. -/
def setCookieHeader (sc : SetCookie) : CookieHeader :=
  .signed sc.data

/-- Modelled from the spec: `safeRedirect` of `remix-utils`, the trusted
external redirect sanitizer (a stated non-goal): keep a local path, otherwise
fall back to the root. -/
def safeRedirect (target : Option String) : String :=
  match target with
  | none => "/"
  | some t => if t.startsWith "/" && !t.startsWith "//" then t else "/"

/-- Modelled from the spec 6: `SESSION_EXPIRATION_TIME` of
`app/utils/auth.server.ts` (not under `src/`): the fixed configured session
duration — thirty days in milliseconds. -/
def SESSION_EXPIRATION_TIME : Nat := 1000 * 60 * 60 * 24 * 30

/-- The largest session id in the store, plus one: an executable stand-in for
the cryptographically random, collision-free id generation of spec 4.2. -/
def freshSessionId (sessions : List Session) : Nat :=
  (sessions.map (fun s => s.id)).foldr (fun a b => max a b) 0 + 1

/-- Modelled from the spec: `login` of `app/utils/auth.server.ts` (not under
`src/`) at this exercise stage. The route's comments establish what it already
does: it returns a session, not a user (lines 48 and 58), whose expiration
date is already available on it (lines 86 to 87); the reference-flow account
of spec 3 likewise has the Session record created with its own expiry. So:
verify the credentials; on success create a Session record — fresh id, the
verified user's id, expiration now + SESSION_EXPIRATION_TIME — in the Session
Store and return it with the updated store; on failure return the store
unchanged and none. -/
def login (users : List User) (sessions : List Session) (now : Nat)
    (username password : String) : List Session × Option Session :=
  match verifyUserPassword users username password with
  | none => (sessions, none)
  | some u =>
    let s : Session :=
      { id := freshSessionId sessions, userId := u.id, createdAt := now,
        expiresAt := some (now + SESSION_EXPIRATION_TIME) }
    (sessions ++ [s], some s)

/-- The outcome the Anonymous Guard signals. -/
inductive GuardResult where
  | proceed
  | alreadyAuthenticated
deriving DecidableEq

/-- Modelled from the spec 4.5: `requireAnonymous` of
`app/utils/auth.server.ts` (not under `src/`): decode the cookie; when a
session id decodes and the Session Store returns a live session, signal
already-authenticated; if decoding fails or the session is absent or expired,
signal proceed. A pure read: it never mutates the Session Store. -/
def requireAnonymous (sessions : List Session) (now : Nat) (cookie : CookieHeader) : GuardResult :=
  match decodeCookie cookie with
  | none => .proceed
  | some data =>
    match data.lookup sessionKey with
    | none => .proceed
    | some sid =>
      match sessionGet sessions sid now with
      | none => .proceed
      | some _ => .alreadyAuthenticated

/-- What the login route `loader` produces: a redirect away, or the page. -/
inductive LoaderResult where
  | redirect (target : String)
  | page
deriving DecidableEq

/-- The `loader` of `login.tsx` (lines 34 to 37): run the Anonymous Guard,
then serve the login page (an empty json). -/
def loader (sessions : List Session) (now : Nat) (cookie : CookieHeader) : LoaderResult :=
  match requireAnonymous sessions now cookie with
  | .alreadyAuthenticated => .redirect "/"
  | .proceed => .page

/-- The submitted login form body together with the conform submission intent
(the intent is "submit" for a real submission, something else for a
validation-only round trip). -/
structure FormInput where
  username : String
  password : String
  redirectTo : Option String
  remember : Bool
  intent : String
deriving DecidableEq

/-- The parsed submission value produced by the zod transform of
`LoginFormSchema`: the form fields plus the field named `user` the transform
attaches — at this stage actually the Session returned by `login` (none on
the non-submit path); the route's comments call the name a mislabel. -/
structure ParsedValue where
  username : String
  password : Option String
  redirectTo : Option String
  remember : Bool
  user : Option Session
deriving DecidableEq

/-- A conform submission: the intent, the raw payload echoed back to the
client, errors keyed by field name (the empty key is the form-level error),
and the optional parsed value. -/
structure Submission where
  intent : String
  payload : List (String × String)
  errors : List (String × String)
  value : Option ParsedValue
deriving DecidableEq

/-- Modelled from the spec 4.1 input constraints: the structural validation of
`usernameSchema` and `passwordSchema` (`app/utils/user-validation.ts`, not
under `src/`): both fields non-empty. -/
def structurallyValid (username password : String) : Bool :=
  !username.isEmpty && !password.isEmpty

/-- The raw payload conform echoes back: every submitted form field as text. -/
def formPayload (f : FormInput) : List (String × String) :=
  [("username", f.username), ("password", f.password)]
    ++ (match f.redirectTo with | some r => [("redirectTo", r)] | none => [])
    ++ (if f.remember then [("remember", "on")] else [])

/-- The `parse(formData, ...)` call of the action (lines 42 to 62 of
`login.tsx`): structural validation, then the schema transform — a non-submit
intent returns the data with a null user; a submit intent calls `login`
(which creates the Session record on success) and either attaches the
returned session under the `user` key or adds the form-level issue
"Invalid username or password" and yields no value. Returns the submission
together with the Session Store as `login` left it. -/
def parseSubmission (users : List User) (sessions : List Session) (now : Nat)
    (f : FormInput) : Submission × List Session :=
  if !structurallyValid f.username f.password then
    ({ intent := f.intent, payload := formPayload f,
       errors := (if f.username.isEmpty then [("username", "Required")] else [])
         ++ (if f.password.isEmpty then [("password", "Required")] else []),
       value := none }, sessions)
  else if f.intent != "submit" then
    ({ intent := f.intent, payload := formPayload f, errors := [],
       value := some { username := f.username, password := some f.password,
                       redirectTo := f.redirectTo, remember := f.remember,
                       user := none } }, sessions)
  else
    match login users sessions now f.username f.password with
    | (sessions1, none) =>
      ({ intent := f.intent, payload := formPayload f,
         errors := [("", "Invalid username or password")], value := none }, sessions1)
    | (sessions1, some s) =>
      ({ intent := f.intent, payload := formPayload f, errors := [],
         value := some { username := f.username, password := some f.password,
                         redirectTo := f.redirectTo, remember := f.remember,
                         user := some s } }, sessions1)

/-- An HTTP response the route can produce: a JSON data response (status
string, HTTP status code, echoed submission) or a redirect (HTTP status code,
target, optional committed Set-Cookie header). -/
inductive Response where
  | json (status : String) (httpStatus : Nat) (submission : Submission)
  | redirect (httpStatus : Nat) (target : String) (setCookie : Option SetCookie)
deriving DecidableEq

/-- The observable outcome of one `action` call: its response, the Session
Store contents afterwards, and how many Credential Store verifications ran. -/
structure ActionResult where
  response : Response
  sessions : List Session
  verifyCalls : Nat
deriving DecidableEq

/-- The `action` of `login.tsx` (lines 39 to 94): Anonymous Guard first; then
parse the form body (a submitted parse runs `login`, which creates the Session
record on success); strip the password entry from the echoed payload; a
non-submit intent returns idle with the password also deleted from the parsed
value; a missing value or session returns a 400 error submission; otherwise
set the id of the returned session on the cookie session under `userIdKey`
(the route's comment says the key should be the sessionKey) and redirect to
the sanitized target, committing the cookie with its Expires recomputed at the
call site from the remember flag. -/
def action (users : List User) (sessions : List Session) (now : Nat)
    (cookie : CookieHeader) (f : FormInput) : ActionResult :=
  match requireAnonymous sessions now cookie with
  | .alreadyAuthenticated =>
    { response := .redirect 302 "/" none, sessions := sessions, verifyCalls := 0 }
  | .proceed =>
    let verifies := if structurallyValid f.username f.password && f.intent == "submit" then 1 else 0
    let parsed := parseSubmission users sessions now f
    let sub := { parsed.1 with
                 payload := parsed.1.payload.filter (fun kv => kv.1 != "password") }
    if sub.intent != "submit" then
      let sub1 := { sub with value := sub.value.map (fun v => { v with password := none }) }
      { response := .json "idle" 200 sub1, sessions := parsed.2, verifyCalls := verifies }
    else
      match sub.value with
      | none =>
        { response := .json "error" 400 sub, sessions := parsed.2, verifyCalls := verifies }
      | some v =>
        match v.user with
        | none =>
          { response := .json "error" 400 sub, sessions := parsed.2, verifyCalls := verifies }
        | some s =>
          let cookieSession := sessionSet (getSession cookie) userIdKey s.id
          let expires := if v.remember then some (now + SESSION_EXPIRATION_TIME) else none
          { response := .redirect 302 (safeRedirect v.redirectTo)
              (some (commitSession cookieSession expires)),
            sessions := parsed.2, verifyCalls := verifies }

/-- A submission echo free of the plaintext password: no payload entry keyed
"password", and no password retained inside the parsed value. -/
def submissionPasswordFree (sub : Submission) : Prop :=
  (∀ kv ∈ sub.payload, kv.1 ≠ "password") ∧
  (∀ v, sub.value = some v → v.password = none)

/-- Password absence for a whole response: a JSON response echoes a
password-free submission; a redirect carries no submission at all. -/
def responsePasswordFree : Response → Prop
  | .json _ _ sub => submissionPasswordFree sub
  | .redirect _ _ _ => True

/-- The committed Set-Cookie a response carries, when it carries one. -/
def responseCookie : Response → Option SetCookie
  | .redirect _ _ sc => sc
  | .json _ _ _ => none

/-- Fixture: the stored user alice, password "correct-horse" hashed. -/
def alice : User :=
  { id := 1, username := "alice", passwordHash := hashPassword "correct-horse" }

/-- Fixture: a credential store holding only alice. -/
def aliceStore : List User := [alice]

/-- Fixture: a correct submitted login for alice, remember off. -/
def submitAlice : FormInput :=
  { username := "alice", password := "correct-horse", redirectTo := none,
    remember := false, intent := "submit" }

/-- Fixture: the same submission with remember on. -/
def submitAliceRemember : FormInput :=
  { submitAlice with remember := true }

/-- Fixture: the same submission with a wrong password. -/
def submitAliceWrong : FormInput :=
  { submitAlice with password := "wrong" }

/-- Fixture: a validation-only round trip (intent is not "submit"). -/
def validateAlice : FormInput :=
  { submitAlice with intent := "validate/username" }

/-- Fixture: a live session with id 5 for user 1, never expiring. -/
def liveSession : Session := { id := 5, userId := 1, createdAt := 0, expiresAt := none }

/-- Fixture: a validly signed cookie carrying session id 5. -/
def liveCookie : CookieHeader := .signed [(sessionKey, 5)]

theorem payload_strip_no_password (l : List (String × String)) :
    ∀ kv ∈ l.filter (fun kv => kv.1 != "password"), kv.1 ≠ "password" := by
  intro kv hkv
  have h := (List.mem_filter.mp hkv).2
  simpa using h

/-- Claim C1, evaluated on the code at the failing input: the valid submitted
login for alice creates a Session record whose userId is alice's id and
commits that session's id into the cookie — but under `userIdKey` rather than
the session key (the route's comment at line 80 says it should be the
sessionKey), so decoding the committed cookie under the codec's session-key
convention yields no session id, even though looking under `userIdKey` does
recover the live Session record with the right userId. -/
theorem C1_session_id_committed_under_wrong_key :
    (action aliceStore [] 0 .absent submitAlice).sessions
      = [{ id := 1, userId := alice.id, createdAt := 0,
           expiresAt := some SESSION_EXPIRATION_TIME }] ∧
    (action aliceStore [] 0 .absent submitAlice).response
      = .redirect 302 "/" (some
          { data := [(userIdKey, 1)],
            expires := none }) ∧
    ((decodeCookie (setCookieHeader
        { data := [(userIdKey, 1)], expires := none })).bind
      (fun d => d.lookup sessionKey)) = none ∧
    ((((decodeCookie (setCookieHeader
        { data := [(userIdKey, 1)], expires := none })).bind
      (fun d => d.lookup userIdKey)).bind
        (fun sid =>
          sessionGet (action aliceStore [] 0 .absent submitAlice).sessions sid 0)).map
      (fun s => s.userId)) = some alice.id := by
  decide

/-- Claim C2: whenever credential verification fails — an unknown username and
a wrong password both make the Credential Store verify return none — the
submitted action responds with data: an error submission whose only error is
the single undifferentiated form-level message "Invalid username or password",
with HTTP status 400. -/
theorem C2_verification_failure_yields_400_form_error
    (users : List User) (sessions : List Session) (now : Nat)
    (cookie : CookieHeader) (f : FormInput)
    (hg : requireAnonymous sessions now cookie = .proceed)
    (hs : structurallyValid f.username f.password = true)
    (hi : f.intent = "submit")
    (hv : verifyUserPassword users f.username f.password = none) :
    (action users sessions now cookie f).response
      = .json "error" 400
          { intent := f.intent,
            payload := (formPayload f).filter (fun kv => kv.1 != "password"),
            errors := [("", "Invalid username or password")],
            value := none } := by
  simp [action, hg, parseSubmission, login, hs, hi, hv]

/-- Witness for C2 at a concrete input: alice with a wrong password. -/
theorem C2_witness :
    (action aliceStore [] 0 .absent submitAliceWrong).response
      = .json "error" 400
          { intent := submitAliceWrong.intent,
            payload := (formPayload submitAliceWrong).filter (fun kv => kv.1 != "password"),
            errors := [("", "Invalid username or password")],
            value := none } :=
  C2_verification_failure_yields_400_form_error aliceStore [] 0 .absent
    submitAliceWrong (by decide) (by decide) rfl (by decide)

/-- Claim C3: for a valid credential submission the action commits a cookie
whose Expires attribute is now plus SESSION_EXPIRATION_TIME when remember is
on, and absent when remember is off. -/
theorem C3_remember_controls_cookie_expires
    (users : List User) (sessions : List Session) (now : Nat)
    (cookie : CookieHeader) (f : FormInput) (u : User)
    (hg : requireAnonymous sessions now cookie = .proceed)
    (hs : structurallyValid f.username f.password = true)
    (hi : f.intent = "submit")
    (hv : verifyUserPassword users f.username f.password = some u) :
    (responseCookie (action users sessions now cookie f).response).map
        (fun sc => sc.expires)
      = some (if f.remember then some (now + SESSION_EXPIRATION_TIME) else none) := by
  simp [action, hg, parseSubmission, login, hs, hi, hv, responseCookie, commitSession]

/-- Witness for C3 at concrete inputs: alice with remember on and with
remember off. -/
theorem C3_witness :
    ((responseCookie (action aliceStore [] 0 .absent submitAliceRemember).response).map
        (fun sc => sc.expires)
      = some (if submitAliceRemember.remember
          then some (0 + SESSION_EXPIRATION_TIME) else none)) ∧
    ((responseCookie (action aliceStore [] 0 .absent submitAlice).response).map
        (fun sc => sc.expires)
      = some (if submitAlice.remember
          then some (0 + SESSION_EXPIRATION_TIME) else none)) :=
  ⟨C3_remember_controls_cookie_expires aliceStore [] 0 .absent submitAliceRemember
      alice (by decide) (by decide) rfl (by decide),
   C3_remember_controls_cookie_expires aliceStore [] 0 .absent submitAlice
      alice (by decide) (by decide) rfl (by decide)⟩

/-- Claim C4, evaluated on the code at the failing input: on a successful
unremembered login the Session record created by `login` stores the
expiration now + SESSION_EXPIRATION_TIME, while the cookie committed at the
call site — where the Expires is independently recomputed from the remember
flag (lines 85 to 91) rather than read from the record — carries no Expires
at all: the two expirations differ, so no single value was computed once and
threaded to both places. The route's comments (lines 86 to 87) say the
expiration is already available on the session and need not be computed
there. -/
theorem C4_cookie_expiry_recomputed_at_call_site_diverges_from_record :
    ((action aliceStore [] 0 .absent submitAlice).sessions.map
      (fun s => s.expiresAt)) = [some (0 + SESSION_EXPIRATION_TIME)] ∧
    ((responseCookie (action aliceStore [] 0 .absent submitAlice).response).map
      (fun sc => sc.expires)) = some none ∧
    ((action aliceStore [] 0 .absent submitAlice).sessions.map
      (fun s => s.expiresAt))
      ≠ ((responseCookie (action aliceStore [] 0 .absent submitAlice).response).map
          (fun sc => sc.expires)).toList := by
  decide

/-- Claim C5: a submitted login whose verification fails returns the
invalid-credentials error outcome and leaves the Session Store contents
unchanged. -/
theorem C5_failed_login_leaves_sessions_unchanged
    (users : List User) (sessions : List Session) (now : Nat)
    (cookie : CookieHeader) (f : FormInput)
    (hg : requireAnonymous sessions now cookie = .proceed)
    (hs : structurallyValid f.username f.password = true)
    (hi : f.intent = "submit")
    (hv : verifyUserPassword users f.username f.password = none) :
    (action users sessions now cookie f).sessions = sessions ∧
    ∃ sub, (action users sessions now cookie f).response = .json "error" 400 sub ∧
      sub.errors = [("", "Invalid username or password")] := by
  refine ⟨by simp [action, hg, parseSubmission, login, hs, hi, hv], ?_⟩
  refine ⟨{ intent := f.intent,
            payload := (formPayload f).filter (fun kv => kv.1 != "password"),
            errors := [("", "Invalid username or password")],
            value := none }, ?_, rfl⟩
  simp [action, hg, parseSubmission, login, hs, hi, hv]

/-- Witness for C5 at a concrete input: alice with a wrong password against a
Session Store holding one record stays as it was. -/
theorem C5_witness :
    (action aliceStore [liveSession] 0 .absent submitAliceWrong).sessions
        = [liveSession] ∧
    ∃ sub, (action aliceStore [liveSession] 0 .absent submitAliceWrong).response
        = .json "error" 400 sub ∧
      sub.errors = [("", "Invalid username or password")] :=
  C5_failed_login_leaves_sessions_unchanged aliceStore [liveSession] 0 .absent
    submitAliceWrong (by decide) (by decide) rfl (by decide)

/-- Claim C6: the loader serves the login page exactly when the request cookie
yields no live session — the header fails to decode, carries no session id, or
the Session Store finds the session absent or expired — and redirects away
exactly when a decoded session id maps to a live session. -/
theorem C6_loader_guards_login_page
    (sessions : List Session) (now : Nat) (cookie : CookieHeader) :
    (loader sessions now cookie = .page
        ↔ (((decodeCookie cookie).bind (fun d => d.lookup sessionKey)).bind
            (fun sid => sessionGet sessions sid now)) = none) ∧
    (loader sessions now cookie = .redirect "/"
        ↔ (((decodeCookie cookie).bind (fun d => d.lookup sessionKey)).bind
            (fun sid => sessionGet sessions sid now)).isSome) := by
  unfold loader requireAnonymous
  cases hdc : decodeCookie cookie with
  | none => simp
  | some data =>
    cases hlk : data.lookup sessionKey with
    | none => simp [hlk]
    | some sid =>
      cases hsg : sessionGet sessions sid now with
      | none => simp [hlk, hsg]
      | some s => simp [hlk, hsg]

/-- Claim C7: no response the action returns contains the submitted plaintext
password — the password entry is stripped from the echoed payload, the echoed
parsed value never retains a password, and the success redirect carries no
submission at all. -/
theorem C7_password_never_echoed
    (users : List User) (sessions : List Session) (now : Nat)
    (cookie : CookieHeader) (f : FormInput) :
    responsePasswordFree (action users sessions now cookie f).response := by
  cases hg : requireAnonymous sessions now cookie with
  | alreadyAuthenticated => simp [action, hg, responsePasswordFree]
  | proceed =>
    by_cases hi : f.intent = "submit"
    · cases hs : structurallyValid f.username f.password with
      | false =>
        simp [action, hg, parseSubmission, login, hs, hi, responsePasswordFree,
          submissionPasswordFree, List.mem_filter]
      | true =>
        cases hv : verifyUserPassword users f.username f.password with
        | none =>
          simp [action, hg, parseSubmission, login, hs, hi, hv,
            responsePasswordFree, submissionPasswordFree, List.mem_filter]
        | some u =>
          simp [action, hg, parseSubmission, login, hs, hi, hv,
            responsePasswordFree, submissionPasswordFree, List.mem_filter]
    · cases hs : structurallyValid f.username f.password with
      | false =>
        simp [action, hg, parseSubmission, login, hs, hi, responsePasswordFree,
          submissionPasswordFree, List.mem_filter]
      | true =>
        simp [action, hg, parseSubmission, login, hs, hi, responsePasswordFree,
          submissionPasswordFree, List.mem_filter]

/-- Claim C8: a successful submitted login responds with a 3xx redirect whose
target is the sanitized redirectTo and whose Set-Cookie header is the
committed session cookie: the cookie session carrying, under `userIdKey`, the
id of the Session record `login` just created for the verified user,
committed with the remember-controlled Expires. -/
theorem C8_success_redirects_with_committed_cookie
    (users : List User) (sessions : List Session) (now : Nat)
    (cookie : CookieHeader) (f : FormInput) (u : User)
    (hg : requireAnonymous sessions now cookie = .proceed)
    (hs : structurallyValid f.username f.password = true)
    (hi : f.intent = "submit")
    (hv : verifyUserPassword users f.username f.password = some u) :
    ∃ st s, (action users sessions now cookie f).response
        = .redirect st (safeRedirect f.redirectTo)
            (some (commitSession (sessionSet (getSession cookie) userIdKey
                (Session.id s))
              (if f.remember then some (now + SESSION_EXPIRATION_TIME) else none)))
      ∧ (action users sessions now cookie f).sessions = sessions ++ [s]
      ∧ Session.userId s = u.id
      ∧ 300 ≤ st ∧ st < 400 := by
  refine ⟨302,
    { id := freshSessionId sessions, userId := u.id, createdAt := now,
      expiresAt := some (now + SESSION_EXPIRATION_TIME) },
    ?_, ?_, rfl, by norm_num, by norm_num⟩
  · simp [action, hg, parseSubmission, login, hs, hi, hv]
  · simp [action, hg, parseSubmission, login, hs, hi, hv]

/-- Witness for C8 at a concrete input: alice logging in with a redirect
target. -/
theorem C8_witness :
    ∃ st s, (action aliceStore [] 0 (.signed [])
          { submitAlice with redirectTo := some "/notes" }).response
        = .redirect st
            (safeRedirect ({ submitAlice with redirectTo := some "/notes" } : FormInput).redirectTo)
            (some (commitSession
              (sessionSet (getSession (.signed [])) userIdKey (Session.id s))
              (if ({ submitAlice with redirectTo := some "/notes" } : FormInput).remember
                then some (0 + SESSION_EXPIRATION_TIME) else none)))
      ∧ (action aliceStore [] 0 (.signed [])
          { submitAlice with redirectTo := some "/notes" }).sessions = [] ++ [s]
      ∧ Session.userId s = alice.id
      ∧ 300 ≤ st ∧ st < 400 :=
  C8_success_redirects_with_committed_cookie aliceStore [] 0 (.signed [])
    { submitAlice with redirectTo := some "/notes" } alice
    (by decide) (by decide) rfl (by decide)

/-- Claim C9: a request whose cookie decodes to a live session is turned away
by the Anonymous Guard before the form body is read: no credential
verification runs, and the action outcome does not depend on the form body. -/
theorem C9_guard_short_circuits_before_body
    (users : List User) (sessions : List Session) (now : Nat)
    (cookie : CookieHeader) (f g : FormInput)
    (data : CookieData) (sid : Nat) (s : Session)
    (h1 : decodeCookie cookie = some data)
    (h2 : data.lookup sessionKey = some sid)
    (h3 : sessionGet sessions sid now = some s) :
    (action users sessions now cookie f).verifyCalls = 0 ∧
    action users sessions now cookie f = action users sessions now cookie g := by
  have hg : requireAnonymous sessions now cookie = .alreadyAuthenticated := by
    unfold requireAnonymous
    simp [h1, h2, h3]
  exact ⟨by simp [action, hg], by simp [action, hg]⟩

/-- Witness for C9 at a concrete input: a signed cookie for live session 5
makes the action ignore both a correct and a wrong credential body. -/
theorem C9_witness :
    (action aliceStore [liveSession] 0 liveCookie submitAlice).verifyCalls = 0 ∧
    action aliceStore [liveSession] 0 liveCookie submitAlice
      = action aliceStore [liveSession] 0 liveCookie submitAliceWrong :=
  C9_guard_short_circuits_before_body aliceStore [liveSession] 0 liveCookie
    submitAlice submitAliceWrong [(sessionKey, 5)] 5 liveSession
    rfl (by decide) (by decide)

/-- Claim C10: a submission whose intent is not "submit" performs no
credential verification and no session mutation, and returns the idle status
with the password stripped from both the echoed payload and the parsed
value. -/
theorem C10_non_submit_is_pure_idle
    (users : List User) (sessions : List Session) (now : Nat)
    (cookie : CookieHeader) (f : FormInput)
    (hg : requireAnonymous sessions now cookie = .proceed)
    (hi : f.intent ≠ "submit") :
    (action users sessions now cookie f).verifyCalls = 0 ∧
    (action users sessions now cookie f).sessions = sessions ∧
    ∃ sub, (action users sessions now cookie f).response = .json "idle" 200 sub ∧
      (∀ kv ∈ sub.payload, kv.1 ≠ "password") ∧
      (∀ v, sub.value = some v → v.password = none) := by
  refine ⟨?_, ?_, ?_⟩
  · cases hs : structurallyValid f.username f.password <;>
      simp [action, hg, parseSubmission, hs, hi]
  · cases hs : structurallyValid f.username f.password <;>
      simp [action, hg, parseSubmission, hs, hi]
  · cases hs : structurallyValid f.username f.password with
    | false =>
      refine ⟨{ intent := f.intent,
                payload := (formPayload f).filter (fun kv => kv.1 != "password"),
                errors := (if f.username.isEmpty then [("username", "Required")] else [])
                  ++ (if f.password.isEmpty then [("password", "Required")] else []),
                value := none }, ?_, ?_, ?_⟩
      · simp [action, hg, parseSubmission, hs, hi]
      · exact payload_strip_no_password _
      · intro v hv
        simp at hv
    | true =>
      refine ⟨{ intent := f.intent,
                payload := (formPayload f).filter (fun kv => kv.1 != "password"),
                errors := [],
                value := some { username := f.username, password := none,
                                redirectTo := f.redirectTo, remember := f.remember,
                                user := none } }, ?_, ?_, ?_⟩
      · simp [action, hg, parseSubmission, hs, hi]
      · exact payload_strip_no_password _
      · intro v hv
        cases hv
        rfl

/-- Witness for C10 at a concrete input: a validation-only round trip for
alice. -/
theorem C10_witness :
    (action aliceStore [] 0 .absent validateAlice).verifyCalls = 0 ∧
    (action aliceStore [] 0 .absent validateAlice).sessions = [] ∧
    ∃ sub, (action aliceStore [] 0 .absent validateAlice).response
        = .json "idle" 200 sub ∧
      (∀ kv ∈ sub.payload, kv.1 ≠ "password") ∧
      (∀ v, sub.value = some v → v.password = none) :=
  C10_non_submit_is_pure_idle aliceStore [] 0 .absent validateAlice
    (by decide) (by decide)
